import Mathlib

/-!
Shallow embedding of the credential/configuration layer and the deployment
lifecycle handler of the provider-akash repository.

Sources embedded:
* internal/client/client.go — configuration resolution, credential cache,
  client construction (`buildAkashProviderConfiguration`, `getCachedCredentials`,
  `loadAndCacheCredentials`, `GetCredentials`, `RefreshCredentials`,
  `NewFromManagedResource`).
* internal/client/constants.go — the documented default constants.
* internal/client/deployment.go — `GetDeployment`, `DeleteDeployment`,
  `UpdateDeployment` (dseq parsing, node-client and broadcast call-outs).
* the deployment controller (`external.Observe` / `external.Update` /
  `external.Delete`) with the external-name annotation logic.

Go `[]byte` values are modelled as `Option Bytes` (`none` = nil slice);
Go time instants and durations as `Nat` (nanoseconds); external call-outs
(secret extraction, usage tracking, node client, queries, broadcasts) as
explicit oracle parameters of `Except` type, with invocation counters kept
in the outcome structures so that "no call was made" is a provable fact.
-/

abbrev Bytes := List Nat

/-- Default configuration constants from internal/client/constants.go. -/
def DefaultKeyName : String := "default"

def DefaultKeyringBackend : String := "test"

def DefaultNet : String := "mainnet"

def DefaultChainId : String := "akashnet-2"

def DefaultNode : String := "https://rpc.akashnet.io:443"

def DefaultVersion : String := "0.18.0"

def DefaultHome : String := "/tmp/.akash"

def DefaultPath : String := "/usr/local/bin/akash"

def DefaultProvidersApi : String := "https://akash-api.polkachu.com"

/-- apis/v1alpha1 AkashConfiguration: every field is an optional pointer. -/
structure AkashConfiguration where
  KeyName : Option String
  KeyringBackend : Option String
  AccountAddress : Option String
  Net : Option String
  Version : Option String
  ChainId : Option String
  Node : Option String
  Home : Option String
  Path : Option String
  ProvidersApi : Option String
deriving DecidableEq

/-- Fully resolved configuration (internal/client/client.go
`AkashProviderConfiguration`); `Creds` is a nilable byte slice. -/
structure AkashProviderConfiguration where
  Creds : Option Bytes
  KeyName : String
  KeyringBackend : String
  AccountAddress : String
  Net : String
  Version : String
  ChainId : String
  Node : String
  Home : String
  Path : String
  ProvidersApi : String
deriving DecidableEq

/-- client.go `getStringValue`: dereference the pointer when non-nil,
else the default. -/
def getStringValue (ptr : Option String) (defaultValue : String) : String :=
  match ptr with
  | some s => s
  | none => defaultValue

/-- client.go `buildAkashProviderConfiguration`: resolve an optional partial
configuration to a full record using the default constants. Fields not
listed in the Go struct literal take the Go zero value (`none` for the
byte slice, `""` for strings). -/
def buildAkashProviderConfiguration (config : Option AkashConfiguration) :
    AkashProviderConfiguration :=
  match config with
  | none =>
    { Creds := none
      KeyName := DefaultKeyName
      KeyringBackend := DefaultKeyringBackend
      AccountAddress := ""
      Net := DefaultNet
      Version := DefaultVersion
      ChainId := DefaultChainId
      Node := DefaultNode
      Home := DefaultHome
      Path := DefaultPath
      ProvidersApi := DefaultProvidersApi }
  | some config =>
    { Creds := none
      KeyName := getStringValue config.KeyName DefaultKeyName
      KeyringBackend := getStringValue config.KeyringBackend DefaultKeyringBackend
      AccountAddress := getStringValue config.AccountAddress ""
      Net := getStringValue config.Net DefaultNet
      Version := getStringValue config.Version DefaultVersion
      ChainId := getStringValue config.ChainId DefaultChainId
      Node := getStringValue config.Node DefaultNode
      Home := getStringValue config.Home DefaultHome
      Path := getStringValue config.Path DefaultPath
      ProvidersApi := getStringValue config.ProvidersApi DefaultProvidersApi }

/-- client.go `SecretReference`. -/
structure SecretReference where
  Name : String
  Namespace : String
  Key : String
deriving DecidableEq

/-- client.go `credentialCache`: nilable blob, last-updated instant and TTL
(both in nanoseconds). The mutex is a concurrency artifact with no sequential
semantics and is not modelled. -/
structure CredentialCache where
  credentials : Option Bytes
  lastUpdated : Nat
  ttl : Nat
deriving DecidableEq

/-- client.go `AkashClient`. `kubeClient` and `usage` record only whether the
corresponding Go pointer is non-nil; the context is not modelled. -/
structure AkashClient where
  Config : AkashProviderConfiguration
  kubeClient : Bool
  secretRef : Option SecretReference
  credentialCache : Option CredentialCache
  usage : Bool
deriving DecidableEq

/-- client.go `getCachedCredentials` at instant `now`: nil when there is no
cache or the entry is stale, the stored blob otherwise. The method only reads
under RLock; the second component returns the (unchanged) receiver state. -/
def getCachedCredentials (ak : AkashClient) (now : Nat) : Option Bytes × AkashClient :=
  match ak.credentialCache with
  | none => (none, ak)
  | some cache =>
    if now - cache.lastUpdated > cache.ttl then (none, ak)
    else (cache.credentials, ak)

/-- View of `Except` as a sum, used to decide equality of outcomes. -/
def exceptToSum {ε α : Type} : Except ε α → ε ⊕ α
  | .error e => .inl e
  | .ok a => .inr a

instance {ε α : Type} [DecidableEq ε] [DecidableEq α] : DecidableEq (Except ε α) :=
  fun a b =>
    decidable_of_iff (exceptToSum a = exceptToSum b)
      (by cases a <;> cases b <;> simp [exceptToSum])

/-- Outcome of a credential-returning operation: the Go `([]byte, error)`
pair, the post-state of the client, and how many times the credential
extractor (`resource.CommonCredentialExtractor`) was invoked. -/
structure CredentialsOutcome where
  result : Except String (Option Bytes)
  client : AkashClient
  loaderCalls : Nat
deriving DecidableEq

/-- client.go `loadAndCacheCredentials`. `extractResult` is the oracle for
what `CommonCredentialExtractor` would return, `now` the instant stored on a
successful refresh. -/
def loadAndCacheCredentials (ak : AkashClient) (extractResult : Except String (Option Bytes))
    (now : Nat) : CredentialsOutcome :=
  if !ak.kubeClient || ak.secretRef.isNone then
    { result := .ok ak.Config.Creds, client := ak, loaderCalls := 0 }
  else
    match extractResult with
    | .error e => { result := .error e, client := ak, loaderCalls := 1 }
    | .ok creds =>
      let cache1 := match ak.credentialCache with
        | none => none
        | some c => some { c with credentials := creds, lastUpdated := now }
      { result := .ok creds
        client := { ak with credentialCache := cache1
                            Config := { ak.Config with Creds := creds } }
        loaderCalls := 1 }

/-- client.go `GetCredentials`: direct credentials when there is no secret
reference, else the cache when fresh, else load-and-cache. -/
def GetCredentials (ak : AkashClient) (extractResult : Except String (Option Bytes))
    (now : Nat) : CredentialsOutcome :=
  match ak.secretRef with
  | none => { result := .ok ak.Config.Creds, client := ak, loaderCalls := 0 }
  | some _ =>
    match (getCachedCredentials ak now).1 with
    | some creds =>
      { result := .ok (some creds), client := (getCachedCredentials ak now).2, loaderCalls := 0 }
    | none => loadAndCacheCredentials ak extractResult now

/-- Outcome of `RefreshCredentials`: the returned error, post-state and
extractor invocation count. -/
structure RefreshOutcome where
  result : Except String Unit
  client : AkashClient
  loaderCalls : Nat
deriving DecidableEq

/-- client.go `RefreshCredentials`: nothing to refresh for direct
credentials, otherwise delegate to `loadAndCacheCredentials`. -/
def RefreshCredentials (ak : AkashClient) (extractResult : Except String (Option Bytes))
    (now : Nat) : RefreshOutcome :=
  match ak.secretRef with
  | none => { result := .ok (), client := ak, loaderCalls := 0 }
  | some _ =>
    let out := loadAndCacheCredentials ak extractResult now
    { result := match out.result with
        | .error e => .error e
        | .ok _ => .ok ()
      client := out.client
      loaderCalls := out.loaderCalls }

/-- Crossplane `xpv1.CredentialsSource` values. -/
inductive CredentialsSource where
  | noCreds
  | secret
  | injectedIdentity
  | environment
  | filesystem
deriving DecidableEq

/-- client.go `ProviderConfigInfo`: the credentials source, the secret
selector of `CommonCredentialSelectors` (nilable), and the optional
configuration block. -/
structure ProviderConfigInfo where
  Source : CredentialsSource
  SecretRef : Option SecretReference
  Configuration : Option AkashConfiguration
deriving DecidableEq

/-- Default credential-cache TTL: 5 minutes in nanoseconds. -/
def defaultCacheTTL : Nat := 300000000000

/-- Outcome of `NewFromManagedResource`: the returned client or error, and
how many times `usage.Track` was invoked. -/
structure BuildOutcome where
  result : Except String AkashClient
  trackCalls : Nat
deriving DecidableEq

/-- client.go `NewFromManagedResource`. `kubeClientPresent` and
`usagePresent` say whether the respective Go pointers are non-nil;
`extractResult` is the oracle for `resource.CommonCredentialExtractor`,
`trackResult` the oracle for `usage.Track`, and `now` the instant written
into the cache on success. The credential extraction happens strictly before
the tracking step, mirroring the statement order in the source. -/
def NewFromManagedResource (kubeClientPresent usagePresent : Bool)
    (pcInfo : ProviderConfigInfo) (extractResult : Except String (Option Bytes))
    (trackResult : Except String Unit) (now : Nat) : BuildOutcome :=
  let config := buildAkashProviderConfiguration pcInfo.Configuration
  let client0 : AkashClient :=
    { Config := config
      kubeClient := kubeClientPresent
      secretRef :=
        if pcInfo.Source = .secret ∧ pcInfo.SecretRef.isSome then pcInfo.SecretRef
        else none
      credentialCache := some { credentials := none, lastUpdated := 0, ttl := defaultCacheTTL }
      usage := usagePresent }
  match extractResult with
  | .error e =>
    { result := .error ("failed to load credentials from ProviderConfig: " ++ e)
      trackCalls := 0 }
  | .ok creds =>
    let finish : AkashClient :=
      { client0 with
        Config := { client0.Config with Creds := creds }
        credentialCache := match client0.credentialCache with
          | none => none
          | some c => some { c with credentials := creds, lastUpdated := now } }
    if usagePresent then
      match trackResult with
      | .error e =>
        { result := .error ("cannot track ProviderConfig usage: " ++ e), trackCalls := 1 }
      | .ok _ => { result := .ok finish, trackCalls := 1 }
    else
      { result := .ok finish, trackCalls := 0 }

/-- Go error string of `strconv.ParseUint` for a syntactically invalid
decimal input. -/
def parseUintSyntaxError (s : String) : String :=
  "strconv.ParseUint: parsing \"" ++ s ++ "\": invalid syntax"

/-- Go error string of `strconv.ParseUint` for a value above 2^64 - 1. -/
def parseUintRangeError (s : String) : String :=
  "strconv.ParseUint: parsing \"" ++ s ++ "\": value out of range"

/-- Model of Go `strconv.ParseUint(s, 10, 64)`: the input must be a
non-empty string of ASCII digits whose value fits in 64 bits; no sign,
prefix or underscore is accepted at an explicit base of 10. -/
def parseUint64 (s : String) : Except String Nat :=
  if s.data.isEmpty then .error (parseUintSyntaxError s)
  else if s.data.all (fun c => c.isDigit) then
    let n := s.data.foldl (fun acc c => acc * 10 + (c.toNat - 48)) 0
    if n ≤ 2 ^ 64 - 1 then .ok n else .error (parseUintRangeError s)
  else .error (parseUintSyntaxError s)

/-- internal/client/types `DeploymentId`. -/
structure DeploymentId where
  Dseq : String
  Owner : String
deriving DecidableEq

/-- internal/client/types `DeploymentInfo`. -/
structure DeploymentInfo where
  State : String
  DeploymentId : DeploymentId
deriving DecidableEq

/-- internal/client/types `EscrowAccountBalance`. -/
structure EscrowAccountBalance where
  Denom : String
  Amount : String
deriving DecidableEq

/-- internal/client/types `EscrowAccount`. -/
structure EscrowAccount where
  Owner : String
  State : String
  Balance : EscrowAccountBalance
deriving DecidableEq

/-- internal/client/types `Deployment`. -/
structure Deployment where
  DeploymentInfo : DeploymentInfo
  EscrowAccount : EscrowAccount
deriving DecidableEq

/-- Fields of the node response that internal/client/deployment.go
`GetDeployment` reads out of `QueryDeploymentResponse`. -/
structure QueryDeploymentResponse where
  state : String
  dseqNum : Nat
  owner : String
  escrowOwner : String
  escrowState : String
  balanceDenom : String
  balanceAmount : String
deriving DecidableEq

/-- Behaviour of `ak.getNodeClient()`: an error or success, together with
the receiver state it leaves behind (the method takes a pointer receiver,
so it is allowed to change the client). -/
abbrev NodeClientFn := AkashClient → Except String Unit × AkashClient

/-- Outcome of a deployment operation of internal/client/deployment.go:
the returned value or error, how many times `getNodeClient` was entered,
how many remote query/broadcast calls were issued, and the final client
state. -/
structure RemoteOutcome (α : Type) where
  result : Except String α
  nodeCalls : Nat
  remoteCalls : Nat
  client : AkashClient
deriving DecidableEq

/-- internal/client/deployment.go `GetDeployment`: parse the dseq, get the
node client, then query the deployment; `queryResult` is the oracle for the
remote `Deployment` query. -/
def GetDeployment (ak : AkashClient) (node : NodeClientFn)
    (queryResult : Except String QueryDeploymentResponse)
    (dseq owner : String) : RemoteOutcome Deployment :=
  match parseUint64 dseq with
  | .error e =>
    { result := .error ("invalid dseq: " ++ e), nodeCalls := 0, remoteCalls := 0, client := ak }
  | .ok _ =>
    match node ak with
    | (.error e, ak1) =>
      { result := .error ("failed to get node client: " ++ e)
        nodeCalls := 1, remoteCalls := 0, client := ak1 }
    | (.ok _, ak1) =>
      match queryResult with
      | .error e =>
        { result := .error ("failed to query deployment: " ++ e)
          nodeCalls := 1, remoteCalls := 1, client := ak1 }
      | .ok r =>
        { result := .ok
            { DeploymentInfo :=
                { State := r.state
                  DeploymentId := { Dseq := toString r.dseqNum, Owner := r.owner } }
              EscrowAccount :=
                { Owner := r.escrowOwner
                  State := r.escrowState
                  Balance := { Denom := r.balanceDenom, Amount := r.balanceAmount } } }
          nodeCalls := 1, remoteCalls := 1, client := ak1 }

/-- internal/client/deployment.go `DeleteDeployment`: parse the dseq; when
the node client is unavailable the source logs and returns success without
any broadcast; otherwise broadcast `MsgCloseDeployment`. -/
def DeleteDeployment (ak : AkashClient) (node : NodeClientFn)
    (broadcastResult : Except String Unit) (dseq owner : String) : RemoteOutcome Unit :=
  match parseUint64 dseq with
  | .error e =>
    { result := .error ("invalid dseq: " ++ e), nodeCalls := 0, remoteCalls := 0, client := ak }
  | .ok _ =>
    match node ak with
    | (.error _, ak1) =>
      { result := .ok (), nodeCalls := 1, remoteCalls := 0, client := ak1 }
    | (.ok _, ak1) =>
      match broadcastResult with
      | .error e =>
        { result := .error ("failed to broadcast close deployment transaction: " ++ e)
          nodeCalls := 1, remoteCalls := 1, client := ak1 }
      | .ok _ => { result := .ok (), nodeCalls := 1, remoteCalls := 1, client := ak1 }

/-- internal/client/deployment.go `UpdateDeployment`: parse the dseq; when
the node client is unavailable the source logs and returns success without
any broadcast; otherwise broadcast `MsgUpdateDeployment`. -/
def UpdateDeployment (ak : AkashClient) (node : NodeClientFn)
    (broadcastResult : Except String Unit) (dseq manifestLocation : String) :
    RemoteOutcome Unit :=
  match parseUint64 dseq with
  | .error e =>
    { result := .error ("invalid dseq: " ++ e), nodeCalls := 0, remoteCalls := 0, client := ak }
  | .ok _ =>
    match node ak with
    | (.error _, ak1) =>
      { result := .ok (), nodeCalls := 1, remoteCalls := 0, client := ak1 }
    | (.ok _, ak1) =>
      match broadcastResult with
      | .error e =>
        { result := .error ("failed to broadcast update deployment transaction: " ++ e)
          nodeCalls := 1, remoteCalls := 1, client := ak1 }
      | .ok _ => { result := .ok (), nodeCalls := 1, remoteCalls := 1, client := ak1 }

/-- The slice of the `Deployment` managed resource the controller reads and
writes: the (nilable) annotation map, the `Spec.ForProvider.Deployment`
manifest parameter, and the `Status.AtProvider.ObservableField` mirror. -/
structure ManagedDeployment where
  annotations : Option (List (String × String))
  forProviderDeployment : String
  statusObservableField : String
deriving DecidableEq

/-- The identity-marker lookup the controller performs: `GetAnnotations()`
followed by an indexing with the `crossplane.io/external-name` key; a nil
map and a missing key both yield the empty string, like Go map indexing. -/
def externalNameOf (cr : ManagedDeployment) : String :=
  match cr.annotations with
  | none => ""
  | some m =>
    match m.lookup "crossplane.io/external-name" with
    | some v => v
    | none => ""

/-- crossplane `managed.ExternalObservation`, with the connection details
as an association list of string keys to byte values (written as strings). -/
structure ExternalObservation where
  ResourceExists : Bool
  ResourceUpToDate : Bool
  ConnectionDetails : List (String × String)
deriving DecidableEq

namespace external

/-- Outcome of `external.Observe`: the observation or error, the number of
`client.GetDeployment` invocations, and the possibly updated managed
resource and client. -/
structure ObserveOutcome where
  result : Except String ExternalObservation
  getDeploymentCalls : Nat
  cr : ManagedDeployment
  client : AkashClient
deriving DecidableEq

/-- Deployment controller `external.Observe`: read the external-name
annotation; when empty, report non-existence with no remote call; otherwise
call `client.GetDeployment` with the configured account address as owner,
downgrading a lookup error to non-existence, and on success report
existing and up to date, mirroring the state into the status and the
connection details. -/
def Observe (ak : AkashClient) (node : NodeClientFn)
    (queryResult : Except String QueryDeploymentResponse)
    (cr : ManagedDeployment) : ObserveOutcome :=
  let dseq := externalNameOf cr
  if dseq = "" then
    { result := .ok { ResourceExists := false, ResourceUpToDate := false, ConnectionDetails := [] }
      getDeploymentCalls := 0, cr := cr, client := ak }
  else
    let out := GetDeployment ak node queryResult dseq ak.Config.AccountAddress
    match out.result with
    | .error _ =>
      { result := .ok { ResourceExists := false, ResourceUpToDate := false, ConnectionDetails := [] }
        getDeploymentCalls := 1, cr := cr, client := out.client }
    | .ok d =>
      { result := .ok
          { ResourceExists := true
            ResourceUpToDate := true
            ConnectionDetails :=
              [("dseq", d.DeploymentInfo.DeploymentId.Dseq),
               ("owner", d.DeploymentInfo.DeploymentId.Owner),
               ("state", d.DeploymentInfo.State)] }
        getDeploymentCalls := 1
        cr := { cr with statusObservableField := d.DeploymentInfo.State }
        client := out.client }

/-- Outcome of `external.Update`: the connection details or error, and the
number of `client.UpdateDeployment` invocations. -/
structure UpdateOutcome where
  result : Except String (List (String × String))
  updateDeploymentCalls : Nat
  client : AkashClient
deriving DecidableEq

/-- Deployment controller `external.Update`: fail with the missing-identity
error when the external-name annotation is empty; otherwise call
`client.UpdateDeployment` with the manifest parameter (defaulted to
"test" when empty). -/
def Update (ak : AkashClient) (node : NodeClientFn)
    (broadcastResult : Except String Unit) (cr : ManagedDeployment) : UpdateOutcome :=
  let dseq := externalNameOf cr
  if dseq = "" then
    { result := .error "cannot update deployment: no external-name annotation found"
      updateDeploymentCalls := 0, client := ak }
  else
    let manifestLocation :=
      if cr.forProviderDeployment = "" then "test" else cr.forProviderDeployment
    let out := UpdateDeployment ak node broadcastResult dseq manifestLocation
    match out.result with
    | .error e => { result := .error e, updateDeploymentCalls := 1, client := out.client }
    | .ok _ =>
      { result := .ok [("dseq", dseq), ("owner", ak.Config.AccountAddress)]
        updateDeploymentCalls := 1, client := out.client }

/-- Outcome of `external.Delete`: the returned error (if any) and the
number of `client.DeleteDeployment` invocations. -/
structure DeleteOutcome where
  result : Except String Unit
  deleteDeploymentCalls : Nat
  client : AkashClient
deriving DecidableEq

/-- Deployment controller `external.Delete`: succeed with no remote call
when the external-name annotation is empty; otherwise call
`client.DeleteDeployment` with the configured account address as owner and
propagate its result. -/
def Delete (ak : AkashClient) (node : NodeClientFn)
    (broadcastResult : Except String Unit) (cr : ManagedDeployment) : DeleteOutcome :=
  let dseq := externalNameOf cr
  if dseq = "" then
    { result := .ok (), deleteDeploymentCalls := 0, client := ak }
  else
    let out := DeleteDeployment ak node broadcastResult dseq ak.Config.AccountAddress
    match out.result with
    | .error e => { result := .error e, deleteDeploymentCalls := 1, client := out.client }
    | .ok _ => { result := .ok (), deleteDeploymentCalls := 1, client := out.client }

end external

/-- Concrete secret-backed client used by witnesses: fresh cache entry
holding the blob `[1, 2]`. -/
def secretClient : AkashClient :=
  { Config := buildAkashProviderConfiguration none
    kubeClient := true
    secretRef := some { Name := "sec", Namespace := "ns", Key := "creds" }
    credentialCache := some { credentials := some [1, 2], lastUpdated := 0, ttl := defaultCacheTTL }
    usage := false }

/-- Node-client oracle that succeeds without changing the client. -/
def okNode : NodeClientFn := fun a => (.ok (), a)

/-- Concrete direct-credential client used by witnesses. -/
def directClient : AkashClient :=
  { Config := buildAkashProviderConfiguration none
    kubeClient := true
    secretRef := none
    credentialCache := some { credentials := none, lastUpdated := 0, ttl := defaultCacheTTL }
    usage := false }

/-- Managed resource with no annotation map at all. -/
def crNoName : ManagedDeployment :=
  { annotations := none, forProviderDeployment := "", statusObservableField := "" }

/-- Managed resource whose external-name annotation is a non-numeric
string. -/
def crAbc : ManagedDeployment :=
  { annotations := some [("crossplane.io/external-name", "abc")]
    forProviderDeployment := "", statusObservableField := "" }

/-- Managed resource whose external-name annotation is the dseq "123". -/
def crNum : ManagedDeployment :=
  { annotations := some [("crossplane.io/external-name", "123")]
    forProviderDeployment := "", statusObservableField := "" }

/-- Sample node answer for a successful deployment query. -/
def sampleResp : QueryDeploymentResponse :=
  { state := "active", dseqNum := 77, owner := "own"
    escrowOwner := "own", escrowState := "open"
    balanceDenom := "uakt", balanceAmount := "5" }

/-- Direct-credential client whose cache entry is already stale at instant
10 (ttl 1, last updated 0). -/
def staleDirectClient : AkashClient :=
  { Config := buildAkashProviderConfiguration none
    kubeClient := true
    secretRef := none
    credentialCache := some { credentials := some [1], lastUpdated := 0, ttl := 1 }
    usage := false }

theorem getStringValue_eq_getD (o : Option String) (d : String) :
    getStringValue o d = o.getD d := by
  cases o <;> rfl

/-- C1: for every optional partial configuration input, including the
absent one, configuration resolution returns a record in which every field
equals the provided value when the corresponding pointer is present, and
the documented default otherwise (key name "default", keyring backend
"test", network "mainnet", chain id "akashnet-2", node
"https://rpc.akashnet.io:443", version "0.18.0", home "/tmp/.akash",
executable path "/usr/local/bin/akash", providers API
"https://akash-api.polkachu.com", account address empty). -/
theorem c1_resolve_fills_every_field (p : Option AkashConfiguration) :
    (buildAkashProviderConfiguration p).KeyName
        = (p.bind AkashConfiguration.KeyName).getD DefaultKeyName
    ∧ (buildAkashProviderConfiguration p).KeyringBackend
        = (p.bind AkashConfiguration.KeyringBackend).getD DefaultKeyringBackend
    ∧ (buildAkashProviderConfiguration p).Net
        = (p.bind AkashConfiguration.Net).getD DefaultNet
    ∧ (buildAkashProviderConfiguration p).ChainId
        = (p.bind AkashConfiguration.ChainId).getD DefaultChainId
    ∧ (buildAkashProviderConfiguration p).Node
        = (p.bind AkashConfiguration.Node).getD DefaultNode
    ∧ (buildAkashProviderConfiguration p).Version
        = (p.bind AkashConfiguration.Version).getD DefaultVersion
    ∧ (buildAkashProviderConfiguration p).Home
        = (p.bind AkashConfiguration.Home).getD DefaultHome
    ∧ (buildAkashProviderConfiguration p).Path
        = (p.bind AkashConfiguration.Path).getD DefaultPath
    ∧ (buildAkashProviderConfiguration p).ProvidersApi
        = (p.bind AkashConfiguration.ProvidersApi).getD DefaultProvidersApi
    ∧ (buildAkashProviderConfiguration p).AccountAddress
        = (p.bind AkashConfiguration.AccountAddress).getD "" := by
  cases p with
  | none => exact ⟨rfl, rfl, rfl, rfl, rfl, rfl, rfl, rfl, rfl, rfl⟩
  | some c =>
    simp [buildAkashProviderConfiguration, getStringValue_eq_getD]

/-- C2: when credential extraction fails, `NewFromManagedResource` returns
the wrapped credential-load error, produces no client, and has not invoked
the usage tracker: credential loading is ordered strictly before usage
tracking and the failure aborts construction before the tracking step. -/
theorem c2_cred_failure_aborts_before_tracking
    (kubeClientPresent usagePresent : Bool) (pcInfo : ProviderConfigInfo)
    (extractResult : Except String (Option Bytes)) (trackResult : Except String Unit)
    (now : Nat) (e : String) (h : extractResult = .error e) :
    NewFromManagedResource kubeClientPresent usagePresent pcInfo extractResult trackResult now
      = { result := .error ("failed to load credentials from ProviderConfig: " ++ e)
          trackCalls := 0 } := by
  subst h
  rfl

theorem c2_witness :
    (Except.error "boom" : Except String (Option Bytes)) = .error "boom"
    ∧ NewFromManagedResource true true
        { Source := .secret, SecretRef := some { Name := "n", Namespace := "ns", Key := "k" }
          Configuration := none }
        (.error "boom") (.ok ()) 7
      = { result := .error ("failed to load credentials from ProviderConfig: " ++ "boom")
          trackCalls := 0 } :=
  ⟨rfl, c2_cred_failure_aborts_before_tracking true true _ _ _ 7 "boom" rfl⟩

/-- C3: a cache read at instant `now` returns the cached blob exactly when
`now - lastUpdated ≤ ttl` and nil when the entry is stale, and leaves the
client state unchanged. The read takes no loader oracle at all — by its
very type it cannot invoke one. -/
theorem c3_cache_read_fresh_iff (ak : AkashClient) (c : CredentialCache) (now : Nat)
    (h : ak.credentialCache = some c) :
    (getCachedCredentials ak now).1
      = (if now - c.lastUpdated ≤ c.ttl then c.credentials else none)
    ∧ (getCachedCredentials ak now).2 = ak := by
  have h1 : getCachedCredentials ak now
      = if now - c.lastUpdated > c.ttl then (none, ak) else (c.credentials, ak) := by
    unfold getCachedCredentials
    rw [h]
  rw [h1]
  by_cases hgt : now - c.lastUpdated > c.ttl
  · rw [if_pos hgt, if_neg (by omega)]
    exact ⟨rfl, rfl⟩
  · rw [if_neg hgt, if_pos (by omega)]
    exact ⟨rfl, rfl⟩

theorem c3_witness :
    secretClient.credentialCache
        = some { credentials := some [1, 2], lastUpdated := 0, ttl := defaultCacheTTL }
    ∧ ((getCachedCredentials secretClient 5).1
        = (if 5 - 0 ≤ defaultCacheTTL then some [1, 2] else none)
      ∧ (getCachedCredentials secretClient 5).2 = secretClient) :=
  ⟨rfl, c3_cache_read_fresh_iff secretClient _ 5 rfl⟩

/-- C4: when the external-name annotation is absent or empty, `Observe`
reports that the resource does not exist and never invokes
`client.GetDeployment`, leaving the managed resource and client unchanged. -/
theorem c4_observe_absent_marker_no_remote_call (ak : AkashClient) (node : NodeClientFn)
    (queryResult : Except String QueryDeploymentResponse) (cr : ManagedDeployment)
    (h : externalNameOf cr = "") :
    external.Observe ak node queryResult cr
      = { result := .ok { ResourceExists := false, ResourceUpToDate := false
                          ConnectionDetails := [] }
          getDeploymentCalls := 0, cr := cr, client := ak } := by
  unfold external.Observe
  rw [h]
  rfl

theorem c4_witness :
    externalNameOf crNoName = ""
    ∧ external.Observe directClient okNode (.ok sampleResp) crNoName
      = { result := .ok { ResourceExists := false, ResourceUpToDate := false
                          ConnectionDetails := [] }
          getDeploymentCalls := 0, cr := crNoName, client := directClient } :=
  ⟨rfl, c4_observe_absent_marker_no_remote_call directClient okNode (.ok sampleResp) crNoName rfl⟩

/-- C5: when the external-name annotation is set and the deployment lookup
fails, `Observe` returns success reporting non-existence; the lookup error
is not propagated. -/
theorem c5_observe_lookup_error_downgraded (ak : AkashClient) (node : NodeClientFn)
    (queryResult : Except String QueryDeploymentResponse) (cr : ManagedDeployment)
    (e : String) (h1 : externalNameOf cr ≠ "")
    (h2 : (GetDeployment ak node queryResult (externalNameOf cr)
            ak.Config.AccountAddress).result = .error e) :
    (external.Observe ak node queryResult cr).result
      = .ok { ResourceExists := false, ResourceUpToDate := false, ConnectionDetails := [] } := by
  unfold external.Observe
  rw [if_neg h1]
  simp only [h2]

theorem c5_witness :
    externalNameOf crAbc ≠ ""
    ∧ (GetDeployment directClient okNode (.ok sampleResp) (externalNameOf crAbc)
        directClient.Config.AccountAddress).result
      = .error ("invalid dseq: " ++ parseUintSyntaxError "abc")
    ∧ (external.Observe directClient okNode (.ok sampleResp) crAbc).result
      = .ok { ResourceExists := false, ResourceUpToDate := false, ConnectionDetails := [] } :=
  ⟨by decide, rfl,
   c5_observe_lookup_error_downgraded directClient okNode (.ok sampleResp) crAbc
     ("invalid dseq: " ++ parseUintSyntaxError "abc") (by decide) rfl⟩

/-- C6: when the external-name annotation is set and the deployment lookup
succeeds, `Observe` reports the resource as existing and up to date —
never stale — so drift is never detected. -/
theorem c6_observe_success_always_up_to_date (ak : AkashClient) (node : NodeClientFn)
    (queryResult : Except String QueryDeploymentResponse) (cr : ManagedDeployment)
    (d : Deployment) (h1 : externalNameOf cr ≠ "")
    (h2 : (GetDeployment ak node queryResult (externalNameOf cr)
            ak.Config.AccountAddress).result = .ok d) :
    (external.Observe ak node queryResult cr).result
      = .ok { ResourceExists := true
              ResourceUpToDate := true
              ConnectionDetails :=
                [("dseq", d.DeploymentInfo.DeploymentId.Dseq),
                 ("owner", d.DeploymentInfo.DeploymentId.Owner),
                 ("state", d.DeploymentInfo.State)] } := by
  unfold external.Observe
  rw [if_neg h1]
  simp only [h2]

theorem c6_witness :
    externalNameOf crNum ≠ ""
    ∧ (GetDeployment directClient okNode (.ok sampleResp) (externalNameOf crNum)
        directClient.Config.AccountAddress).result
      = .ok { DeploymentInfo :=
                { State := "active", DeploymentId := { Dseq := "77", Owner := "own" } }
              EscrowAccount :=
                { Owner := "own", State := "open"
                  Balance := { Denom := "uakt", Amount := "5" } } }
    ∧ (external.Observe directClient okNode (.ok sampleResp) crNum).result
      = .ok { ResourceExists := true
              ResourceUpToDate := true
              ConnectionDetails := [("dseq", "77"), ("owner", "own"), ("state", "active")] } :=
  ⟨by decide, rfl,
   c6_observe_success_always_up_to_date directClient okNode (.ok sampleResp) crNum
     { DeploymentInfo :=
         { State := "active", DeploymentId := { Dseq := "77", Owner := "own" } }
       EscrowAccount :=
         { Owner := "own", State := "open"
           Balance := { Denom := "uakt", Amount := "5" } } }
     (by decide) rfl⟩

/-- C7: when the external-name annotation is empty, `Update` returns the
missing-identity error and never invokes `client.UpdateDeployment`. -/
theorem c7_update_missing_marker_errors (ak : AkashClient) (node : NodeClientFn)
    (broadcastResult : Except String Unit) (cr : ManagedDeployment)
    (h : externalNameOf cr = "") :
    external.Update ak node broadcastResult cr
      = { result := .error "cannot update deployment: no external-name annotation found"
          updateDeploymentCalls := 0, client := ak } := by
  unfold external.Update
  rw [h]
  rfl

theorem c7_witness :
    externalNameOf crNoName = ""
    ∧ external.Update directClient okNode (.ok ()) crNoName
      = { result := .error "cannot update deployment: no external-name annotation found"
          updateDeploymentCalls := 0, client := directClient } :=
  ⟨rfl, c7_update_missing_marker_errors directClient okNode (.ok ()) crNoName rfl⟩

/-- C8: when the external-name annotation is absent or empty, `Delete`
succeeds without invoking `client.DeleteDeployment`: deleting a
never-created resource is an idempotent no-op. -/
theorem c8_delete_missing_marker_noop (ak : AkashClient) (node : NodeClientFn)
    (broadcastResult : Except String Unit) (cr : ManagedDeployment)
    (h : externalNameOf cr = "") :
    external.Delete ak node broadcastResult cr
      = { result := .ok (), deleteDeploymentCalls := 0, client := ak } := by
  unfold external.Delete
  rw [h]
  rfl

theorem c8_witness :
    externalNameOf crNoName = ""
    ∧ external.Delete directClient okNode (.ok ()) crNoName
      = { result := .ok (), deleteDeploymentCalls := 0, client := directClient } :=
  ⟨rfl, c8_delete_missing_marker_noop directClient okNode (.ok ()) crNoName rfl⟩

/-- C9 counterexample: it is not true that a forced refresh invokes the
credential loader for every client handle and cache state — a client with
no secret reference (direct credentials) returns from `RefreshCredentials`
without any loader invocation, even though its cache entry is stale. -/
theorem c9_counterexample :
    ¬ (∀ (ak : AkashClient) (extractResult : Except String (Option Bytes)) (now : Nat),
        1 ≤ (RefreshCredentials ak extractResult now).loaderCalls) := by
  intro h
  have h1 := h staleDirectClient (.ok (some [2])) 10
  have h0 : (RefreshCredentials staleDirectClient (.ok (some [2])) 10).loaderCalls = 0 := rfl
  rw [h0] at h1
  exact absurd h1 (by decide)

/-- C9 amended: for every client handle that holds a kube client and a
secret reference, a forced credential refresh (`RefreshCredentials`)
invokes the credential loader exactly once, regardless of whether the
cached entry is still fresh. -/
theorem c9_force_refresh_always_loads (ak : AkashClient)
    (extractResult : Except String (Option Bytes)) (now : Nat)
    (r : SecretReference) (hk : ak.kubeClient = true) (hs : ak.secretRef = some r) :
    (RefreshCredentials ak extractResult now).loaderCalls = 1 := by
  unfold RefreshCredentials
  rw [hs]
  unfold loadAndCacheCredentials
  rw [hk, hs]
  cases extractResult <;> rfl

theorem c9_witness :
    secretClient.kubeClient = true
    ∧ secretClient.secretRef = some { Name := "sec", Namespace := "ns", Key := "creds" }
    ∧ (RefreshCredentials secretClient (.ok (some [3])) 0).loaderCalls = 1 :=
  ⟨rfl, rfl,
   c9_force_refresh_always_loads secretClient (.ok (some [3])) 0
     { Name := "sec", Namespace := "ns", Key := "creds" } rfl rfl⟩

/-- C10: for every dseq string that does not parse as a decimal unsigned
64-bit integer, `GetDeployment`, `DeleteDeployment` and `UpdateDeployment`
each return the "invalid dseq" error with zero node-client entries and
zero remote calls, leaving the client state unchanged. -/
theorem c10_invalid_dseq_no_remote_call (ak : AkashClient) (node : NodeClientFn)
    (queryResult : Except String QueryDeploymentResponse)
    (broadcastResult : Except String Unit)
    (dseq owner manifestLocation e : String)
    (h : parseUint64 dseq = .error e) :
    GetDeployment ak node queryResult dseq owner
      = { result := .error ("invalid dseq: " ++ e)
          nodeCalls := 0, remoteCalls := 0, client := ak }
    ∧ DeleteDeployment ak node broadcastResult dseq owner
      = { result := .error ("invalid dseq: " ++ e)
          nodeCalls := 0, remoteCalls := 0, client := ak }
    ∧ UpdateDeployment ak node broadcastResult dseq manifestLocation
      = { result := .error ("invalid dseq: " ++ e)
          nodeCalls := 0, remoteCalls := 0, client := ak } := by
  unfold GetDeployment DeleteDeployment UpdateDeployment
  rw [h]
  exact ⟨rfl, rfl, rfl⟩

theorem c10_witness :
    parseUint64 "test" = .error (parseUintSyntaxError "test")
    ∧ (GetDeployment directClient okNode (.ok sampleResp) "test" "own"
        = { result := .error ("invalid dseq: " ++ parseUintSyntaxError "test")
            nodeCalls := 0, remoteCalls := 0, client := directClient }
      ∧ DeleteDeployment directClient okNode (.ok ()) "test" "own"
        = { result := .error ("invalid dseq: " ++ parseUintSyntaxError "test")
            nodeCalls := 0, remoteCalls := 0, client := directClient }
      ∧ UpdateDeployment directClient okNode (.ok ()) "test" "manifest.yaml"
        = { result := .error ("invalid dseq: " ++ parseUintSyntaxError "test")
            nodeCalls := 0, remoteCalls := 0, client := directClient }) :=
  ⟨rfl,
   c10_invalid_dseq_no_remote_call directClient okNode (.ok sampleResp) (.ok ())
     "test" "own" "manifest.yaml" (parseUintSyntaxError "test") rfl⟩
